import Mathlib

/-!
Verification of the vps.js command-line helper.

This file gives a shallow embedding of the pure logic of the repository:
the audit output parsers and pass/fail/warn classification pipeline
(`src/commands/audit.ts`), the SSH output normalizer and remote runner
result shape (`src/lib/ssh.ts`), the remote-home memoization
(`src/lib/compose.ts`), and the compose-file text splicer
(`src/commands/compose.ts`).

JavaScript string primitives (`split`, `trim`, `includes`, `indexOf`,
`slice`, `startsWith`, `toLowerCase`, `join`) are embedded as structurally
recursive functions over `List Char` (the logical model of `String`), so
that every definition is executable and kernel-reducible.  The handful of
regular expressions used by the source are embedded as deterministic
matchers that reproduce the leftmost-first search and alternation order of
the JavaScript engine on the concrete patterns involved.
-/

set_option maxRecDepth 8192

/-! ## JavaScript string primitives -/

/-- JS `String.prototype.split` with a single-character separator, on the
character list: `"".split(c) = [""]`, separators delimit (possibly empty)
fields. -/
def splitCharList (sep : Char) : List Char → List (List Char)
  | [] => [[]]
  | c :: cs =>
    let r := splitCharList sep cs
    if c = sep then [] :: r
    else
      match r with
      | [] => [[c]]
      | h :: t => (c :: h) :: t

/-- JS `s.split(sep)` for a one-character separator. -/
def jsSplitOnChar (sep : Char) (s : String) : List String :=
  (splitCharList sep s.data).map String.mk

/-- Trim whitespace from both ends of a character list. -/
def trimCharList (l : List Char) : List Char :=
  ((l.dropWhile Char.isWhitespace).reverse.dropWhile Char.isWhitespace).reverse

/-- JS `s.trim()`. -/
def jsTrim (s : String) : String := String.mk (trimCharList s.data)

/-- JS `s.trimStart()`. -/
def jsTrimLeft (s : String) : String := String.mk (s.data.dropWhile Char.isWhitespace)

/-- JS `s.startsWith(pre)`. -/
def jsStartsWith (s pre : String) : Bool := pre.data.isPrefixOf s.data

/-- Index of the first occurrence of `needle` in `hay`, if any
(JS `String.prototype.indexOf` restricted to a found/not-found answer). -/
def firstMatchPos (hay needle : List Char) : Option Nat :=
  match hay with
  | [] => if needle.isPrefixOf ([] : List Char) then some 0 else none
  | _ :: t =>
    if needle.isPrefixOf hay then some 0
    else (firstMatchPos t needle).map (· + 1)

/-- JS `s.indexOf(sub)` packaged as an `Option`. -/
def jsIndexOf? (s sub : String) : Option Nat := firstMatchPos s.data sub.data

/-- JS `s.includes(sub)`. -/
def jsIncludes (s sub : String) : Bool := (jsIndexOf? s sub).isSome

/-- JS `s.slice(i)` for a nonnegative index. -/
def jsSliceFrom (s : String) (i : Nat) : String := String.mk (s.data.drop i)

/-- JS `s.toLowerCase()` (ASCII letters, which is all the source compares). -/
def jsToLower (s : String) : String := String.mk (s.data.map Char.toLower)

/-- JS `Array.prototype.join(sep)`. -/
def joinWith (sep : String) : List String → String
  | [] => ""
  | [s] => s
  | s :: rest => s ++ sep ++ joinWith sep rest

/-- Numeric value of a decimal digit string (JS `parseInt(s, 10)` at the
source's call sites, which only ever pass nonempty all-digit strings). -/
def jsParseIntNat (s : String) : Nat :=
  s.data.foldl (fun a c => a * 10 + (c.toNat - ('0').toNat)) 0

/-! ## `SSHResult` and `sshExec` (src/lib/ssh.ts) -/

/-- Captured output of the locally spawned `ssh` process. -/
structure ProcOutcome where
  stdout : String
  stderr : String
  exitCode : Int
deriving DecidableEq, Repr

/-- What `Bun.spawn` did: either the process ran to completion, or spawning
itself raised an error carrying a message. -/
inductive SpawnOutcome where
  | ok (p : ProcOutcome)
  | spawnError (message : String)
deriving DecidableEq, Repr

/-- Structure `SSHResult` from src/lib/types.ts. -/
structure SSHResult where
  stdout : String
  stderr : String
  exitCode : Int
  success : Bool
deriving DecidableEq, Repr

/-- Function `sshExec` from src/lib/ssh.ts, as a function of the spawn outcome: the
source wraps the whole body in `try`/`catch` and both branches `return`,
so the embedding is a total function into `SSHResult`. -/
def sshExec (spawn : SpawnOutcome) : SSHResult :=
  match spawn with
  | .ok p => ⟨jsTrim p.stdout, jsTrim p.stderr, p.exitCode, p.exitCode == 0⟩
  | .spawnError message => ⟨"", message, 1, false⟩

/-! ## `filterMOTDFromOutput` (src/lib/ssh.ts) -/

/-- The marker-less fallback of `filterMOTDFromOutput`: split into lines,
trim each, drop empties, return the last one; if none remain, return the
trimmed input. -/
def lastNonEmptyFallback (output : String) : String :=
  let lines := ((jsSplitOnChar '\n' output).map jsTrim).filter (fun l => l != "")
  match lines.getLast? with
  | some l => l
  | none => jsTrim output

/-- Function `filterMOTDFromOutput` from src/lib/ssh.ts: the source guard
is the JS truthiness test `if (outputMarker)`, under which a supplied
empty-string marker is falsy just like an omitted one.  With a truthy
marker that occurs, return the suffix from its first occurrence;
otherwise (marker omitted, empty, or absent from the input) fall through
to the last-non-empty-trimmed-line fallback. -/
def filterMOTDFromOutput (output : String) (outputMarker : Option String) : String :=
  match outputMarker with
  | some marker =>
    if marker != "" then
      match jsIndexOf? output marker with
      | some markerIndex => jsSliceFrom output markerIndex
      | none => lastNonEmptyFallback output
    else lastNonEmptyFallback output
  | none => lastNonEmptyFallback output

/-! ## `parseSSHConfig` (src/commands/audit.ts) -/

/-- Structure `SSHConfig` from src/lib/types.ts. -/
structure SSHConfig where
  permitRootLogin : String
  passwordAuthentication : String
  challengeResponseAuthentication : String
  allowUsers : String
  useDNS : String
deriving DecidableEq, Repr

/-- The `Partial<SSHConfig>` accumulator that `parseSSHConfig` fills in. -/
structure SSHConfigAcc where
  permitRootLogin : Option String
  passwordAuthentication : Option String
  challengeResponseAuthentication : Option String
  allowUsers : Option String
  useDNS : Option String
deriving DecidableEq, Repr

/-- The empty accumulator (`const config: Partial<SSHConfig> = {}`). -/
def emptySSHConfigAcc : SSHConfigAcc := ⟨none, none, none, none, none⟩

/-- JS `x || d` for an optional string `x`: `undefined` and `""` both fall
back to the default. -/
def jsOrDefault (v : Option String) (d : String) : String :=
  match v with
  | none => d
  | some s => if s == "" then d else s

/-- JS `trimmed.split("=")[1]` as an `Option`. -/
def splitEqSecond (trimmed : String) : Option String :=
  (jsSplitOnChar '=' trimmed).get? 1

/-- One iteration of the `for (const line of output.split("\n"))` loop in
`parseSSHConfig`. -/
def parseSSHConfigLine (acc : SSHConfigAcc) (line : String) : SSHConfigAcc :=
  let trimmed := jsTrim line
  if jsStartsWith trimmed "PERMIT_ROOT=" then
    { acc with permitRootLogin := some (jsOrDefault (splitEqSecond trimmed) "unknown") }
  else if jsStartsWith trimmed "PASSWORD_AUTH=" then
    { acc with passwordAuthentication := some (jsOrDefault (splitEqSecond trimmed) "unknown") }
  else if jsStartsWith trimmed "CHALLENGE_RESP=" then
    let value := jsOrDefault (splitEqSecond trimmed) ""
    { acc with challengeResponseAuthentication := some (if value == "" then "no" else value) }
  else if jsStartsWith trimmed "ALLOW_USERS=" then
    let joined := joinWith "=" ((jsSplitOnChar '=' trimmed).drop 1)
    { acc with allowUsers := some (if joined == "" then "not set" else joined) }
  else if jsStartsWith trimmed "USE_DNS=" then
    { acc with useDNS := some (jsOrDefault (splitEqSecond trimmed) "unknown") }
  else acc

/-- Function `parseSSHConfig` from src/commands/audit.ts. -/
def parseSSHConfig (output : String) : SSHConfig :=
  let acc := (jsSplitOnChar '\n' output).foldl parseSSHConfigLine emptySSHConfigAcc
  ⟨jsOrDefault acc.permitRootLogin "unknown",
   jsOrDefault acc.passwordAuthentication "unknown",
   jsOrDefault acc.challengeResponseAuthentication "no",
   jsOrDefault acc.allowUsers "not set",
   jsOrDefault acc.useDNS "unknown"⟩

/-- One line carries none of the five expected `KEY=` prefixes (after
trimming). -/
def lineNoKey (line : String) : Bool :=
  let trimmed := jsTrim line
  !(jsStartsWith trimmed "PERMIT_ROOT=") && !(jsStartsWith trimmed "PASSWORD_AUTH=") &&
  !(jsStartsWith trimmed "CHALLENGE_RESP=") && !(jsStartsWith trimmed "ALLOW_USERS=") &&
  !(jsStartsWith trimmed "USE_DNS=")

/-- Hypothesis predicate for claim C9: no line of the blob carries any of
the five expected `KEY=` prefixes (after trimming). -/
def noSSHConfigKeyLines (output : String) : Bool :=
  (jsSplitOnChar '\n' output).all lineNoKey

/-! ## `parseListeningPorts` (src/commands/audit.ts)

The source finds the local address with the regular expression

  (?:^|\s)([0-9]+\.[0-9]+\.[0-9]+\.[0-9]+:[0-9]+|\[?::\]?:[0-9]+|\[::1\]:[0-9]+|::1:[0-9]+|\*:[0-9]+)

The embedding reproduces the JavaScript engine's behaviour on this
pattern: candidate capture positions are the string start and every
position right after a whitespace character, scanned left to right, and at
each position the five alternatives are tried in the order written.  Each
alternative is deterministic (greedy digit runs followed by disjoint
literals), so no backtracking arises. -/

/-- A maximal (greedy) run of at least one decimal digit (`[0-9]+`). -/
def pDigits1 (cs : List Char) : Option (List Char × List Char) :=
  match cs.span Char.isDigit with
  | (d, r) => if d.isEmpty then none else some (d, r)

/-- Consume one literal character. -/
def pLitChar (c : Char) : List Char → Option (List Char)
  | x :: xs => if x = c then some xs else none
  | [] => none

/-- Alternative 1: `[0-9]+\.[0-9]+\.[0-9]+\.[0-9]+:[0-9]+`. -/
def matchIPv4Port (cs : List Char) : Option (List Char) := do
  let (d1, r1) ← pDigits1 cs
  let r2 ← pLitChar '.' r1
  let (d2, r3) ← pDigits1 r2
  let r4 ← pLitChar '.' r3
  let (d3, r5) ← pDigits1 r4
  let r6 ← pLitChar '.' r5
  let (d4, r7) ← pDigits1 r6
  let r8 ← pLitChar ':' r7
  let (d5, _) ← pDigits1 r8
  pure (d1 ++ ['.'] ++ d2 ++ ['.'] ++ d3 ++ ['.'] ++ d4 ++ [':'] ++ d5)

/-- Alternative 2: `\[?::\]?:[0-9]+` (the optional brackets are forced
whenever present, since the following literal differs from them). -/
def matchBracketColons (cs : List Char) : Option (List Char) :=
  let (pre, cs1) : List Char × List Char :=
    match cs with
    | '[' :: rest => (['['], rest)
    | _ => ([], cs)
  (do
    let cs2 ← pLitChar ':' cs1
    let cs3 ← pLitChar ':' cs2
    let (mid, cs4) : List Char × List Char :=
      match cs3 with
      | ']' :: rest => ([']'], rest)
      | _ => ([], cs3)
    let cs5 ← pLitChar ':' cs4
    let (d, _) ← pDigits1 cs5
    pure (pre ++ [':', ':'] ++ mid ++ [':'] ++ d))

/-- Alternative 3: `\[::1\]:[0-9]+`. -/
def matchBracketLoopbackPort (cs : List Char) : Option (List Char) := do
  let r1 ← pLitChar '[' cs
  let r2 ← pLitChar ':' r1
  let r3 ← pLitChar ':' r2
  let r4 ← pLitChar '1' r3
  let r5 ← pLitChar ']' r4
  let r6 ← pLitChar ':' r5
  let (d, _) ← pDigits1 r6
  pure (['[', ':', ':', '1', ']', ':'] ++ d)

/-- Alternative 4: `::1:[0-9]+`. -/
def matchLoopbackColonPort (cs : List Char) : Option (List Char) := do
  let r1 ← pLitChar ':' cs
  let r2 ← pLitChar ':' r1
  let r3 ← pLitChar '1' r2
  let r4 ← pLitChar ':' r3
  let (d, _) ← pDigits1 r4
  pure ([':', ':', '1', ':'] ++ d)

/-- Alternative 5: `\*:[0-9]+`. -/
def matchStarPort (cs : List Char) : Option (List Char) := do
  let r1 ← pLitChar '*' cs
  let r2 ← pLitChar ':' r1
  let (d, _) ← pDigits1 r2
  pure (['*', ':'] ++ d)

/-- Try the five alternatives at one capture position, in source order. -/
def matchAddrPortAt (cs : List Char) : Option (List Char) :=
  (matchIPv4Port cs) <|> (matchBracketColons cs) <|> (matchBracketLoopbackPort cs) <|>
    (matchLoopbackColonPort cs) <|> (matchStarPort cs)

/-- Scan for the leftmost capture position (string start, or any position
right after a whitespace character) where an alternative matches. -/
def findAddrPortGo : List Char → Bool → Option (List Char)
  | [], _ => none
  | c :: rest, valid =>
    match (if valid then matchAddrPortAt (c :: rest) else none) with
    | some m => some m
    | none => findAddrPortGo rest c.isWhitespace

/-- The whole-line `line.match(...)` of `parseListeningPorts`, returning
the captured `addrPort` text. -/
def findAddrPort (line : String) : Option String :=
  (findAddrPortGo line.data true).map String.mk

/-- Anchored test `^[0-9]+\.[0-9]+\.[0-9]+\.[0-9]+:[0-9]+$`. -/
def isFullIPv4Port (s : String) : Bool :=
  (matchIPv4Port s.data).any (fun m => m.length == s.data.length)

/-- Anchored test `^\[::\]:[0-9]+$`. -/
def isBracketAllPort (s : String) : Bool :=
  match s.data with
  | '[' :: ':' :: ':' :: ']' :: ':' :: rest => !rest.isEmpty && rest.all Char.isDigit
  | _ => false

/-- Anchored test `^:::[0-9]+$`. -/
def isTripleColonPort (s : String) : Bool :=
  match s.data with
  | ':' :: ':' :: ':' :: rest => !rest.isEmpty && rest.all Char.isDigit
  | _ => false

/-- Anchored test `^\[::1\]:[0-9]+$`. -/
def isBracketLoopbackPort (s : String) : Bool :=
  match s.data with
  | '[' :: ':' :: ':' :: '1' :: ']' :: ':' :: rest => !rest.isEmpty && rest.all Char.isDigit
  | _ => false

/-- Anchored test `^::1:[0-9]+$`. -/
def isLoopbackColonPort (s : String) : Bool :=
  match s.data with
  | ':' :: ':' :: '1' :: ':' :: rest => !rest.isEmpty && rest.all Char.isDigit
  | _ => false

/-- Anchored test `^\*:[0-9]+$`. -/
def isStarPort (s : String) : Bool :=
  match s.data with
  | '*' :: ':' :: rest => !rest.isEmpty && rest.all Char.isDigit
  | _ => false

/-- The bind-address/port classification of the captured `addrPort`,
with the source's slice indices preserved exactly: in particular the
`::1:port` branch performs `addrPort.slice(5)` although the `::1:` prefix
is four characters long. -/
def classifyAddrPort (addrPort : String) : String × String :=
  if isFullIPv4Port addrPort then
    match jsSplitOnChar ':' addrPort with
    | addr :: p :: _ => (addr, p)
    | _ => ("", "")
  else if isBracketAllPort addrPort then ("::", jsSliceFrom addrPort 5)
  else if isTripleColonPort addrPort then ("::", jsSliceFrom addrPort 3)
  else if isBracketLoopbackPort addrPort then ("::1", jsSliceFrom addrPort 6)
  else if isLoopbackColonPort addrPort then ("::1", jsSliceFrom addrPort 5)
  else if isStarPort addrPort then ("*", jsSliceFrom addrPort 2)
  else ("", "")

/-- First token of the trimmed line (`line.trim().split(/\s+/)[0]`). -/
def firstToken (line : String) : String :=
  String.mk ((jsTrim line).data.takeWhile (fun c => !c.isWhitespace))

/-- Try the process-name pattern `users:\(\("([^"]+)"` at one position. -/
def tryProcessAt (cs : List Char) : Option String :=
  let marker := "users:((\"".data
  if marker.isPrefixOf cs then
    let rest := cs.drop marker.length
    match rest.span (fun c => c != '"') with
    | ([], _) => none
    | (name, '"' :: _) => some (String.mk name)
    | (_, _) => none
  else none

/-- Scan the line for the first full match of the process-name pattern. -/
def extractProcessGo : List Char → Option String
  | [] => none
  | c :: rest =>
    match tryProcessAt (c :: rest) with
    | some name => some name
    | none => extractProcessGo rest

/-- The `line.match(/users:\(\("([^"]+)"/)` capture of
`parseListeningPorts`. -/
def extractProcess (line : String) : Option String := extractProcessGo line.data

/-- One entry of the `allPorts` array of `parseListeningPorts` (the port
is kept as the parsed string, as in the source). -/
structure PortInfo where
  protocol : String
  port : String
  process : Option String
  bind : String
deriving DecidableEq, Repr

/-- Structure `ExposedPort` from src/lib/types.ts (numeric port). -/
structure ExposedPort where
  protocol : String
  port : Nat
  process : Option String
  bindAddress : String
deriving DecidableEq, Repr

/-- The per-line parsing of `parseListeningPorts`: skip lines without
"LISTEN", read the protocol from the first token, find and classify the
address/port capture, skip when no port was extracted. -/
def processLine (line : String) : Option PortInfo :=
  if !(jsIncludes line "LISTEN") then none
  else
    let t0 := jsToLower (firstToken line)
    let protocol := if jsStartsWith t0 "tcp" then "TCP"
      else if jsStartsWith t0 "udp" then "UDP" else "TCP"
    match findAddrPort line with
    | none => none
    | some addrPort =>
      let (bindAddr, port) := classifyAddrPort addrPort
      if port == "" then none
      else some ⟨protocol, port, extractProcess line, bindAddr⟩

/-- The exposure test of `parseListeningPorts`:
`isExposed && !isLocalhost && !isExpectedPort`. -/
def eligible (p : PortInfo) : Bool :=
  (p.bind == "0.0.0.0" || p.bind == "::" || p.bind == "*") &&
  !(p.bind == "127.0.0.1" || p.bind == "::1") &&
  !(jsParseIntNat p.port == 22 || jsParseIntNat p.port == 53 || jsParseIntNat p.port == 123)

/-- The `exposedMap` key: `` `${protocol}:${port}` ``. -/
def recKey (p : PortInfo) : String := p.protocol ++ ":" ++ p.port

/-- The `ExposedPort` value stored in the map for a record. -/
def toExposed (p : PortInfo) : ExposedPort :=
  ⟨p.protocol, jsParseIntNat p.port, p.process, p.bind⟩

/-- One iteration of the line loop of `parseListeningPorts`: push the
parsed record to `allPorts`, and when it is exposed and its key is new,
insert it into the (insertion-ordered) `exposedMap`. -/
def parseStep (acc : List PortInfo × List (String × ExposedPort)) (line : String) :
    List PortInfo × List (String × ExposedPort) :=
  match processLine line with
  | none => acc
  | some p =>
    let allPorts := acc.1 ++ [p]
    if eligible p then
      if (acc.2.map Prod.fst).contains (recKey p) then (allPorts, acc.2)
      else (allPorts, acc.2 ++ [(recKey p, toExposed p)])
    else (allPorts, acc.2)

/-- Function `parseListeningPorts` with the internal `exposedMap` still visible
(association list in insertion order). -/
def parseListeningPortsFull (ssOutput : String) :
    List PortInfo × List (String × ExposedPort) :=
  (jsSplitOnChar '\n' ssOutput).foldl parseStep ([], [])

/-- Function `parseListeningPorts` from src/commands/audit.ts: the `allPorts` array
and `Array.from(exposedMap.values())`. -/
def parseListeningPorts (ssOutput : String) : List PortInfo × List ExposedPort :=
  let acc := parseListeningPortsFull ssOutput
  (acc.1, acc.2.map Prod.snd)

/-! ## The audit accumulator and verdict (`runAudit`, src/commands/audit.ts) -/

/-- Structure `AuditResults` from src/lib/types.ts. -/
structure AuditResults where
  passed : Nat
  failed : Nat
  warnings : Nat
  passedItems : List String
  failedItems : List String
  warnedItems : List String
deriving DecidableEq, Repr

/-- Classification of a single check. -/
inductive CheckKind where
  | pass
  | fail
  | warn
deriving DecidableEq, Repr

/-- One recorded check: its classification and human-readable message. -/
structure AuditCheck where
  kind : CheckKind
  message : String
deriving DecidableEq, Repr

/-- The `checkPass` closure of `runAudit`. -/
def checkPass (results : AuditResults) (message : String) : AuditResults :=
  { results with passed := results.passed + 1, passedItems := results.passedItems ++ [message] }

/-- The `checkFail` closure of `runAudit`. -/
def checkFail (results : AuditResults) (message : String) : AuditResults :=
  { results with failed := results.failed + 1, failedItems := results.failedItems ++ [message] }

/-- The `checkWarn` closure of `runAudit`. -/
def checkWarn (results : AuditResults) (message : String) : AuditResults :=
  { results with warnings := results.warnings + 1, warnedItems := results.warnedItems ++ [message] }

/-- Record one classified check into the accumulator. -/
def applyCheck (results : AuditResults) (c : AuditCheck) : AuditResults :=
  match c.kind with
  | .pass => checkPass results c.message
  | .fail => checkFail results c.message
  | .warn => checkWarn results c.message

/-- Record a probe's checks in order. -/
def applyChecks (results : AuditResults) (cs : List AuditCheck) : AuditResults :=
  cs.foldl applyCheck results

/-- The Fail2Ban probe classification of `runAudit` (lines 409-439 of
src/commands/audit.ts), as a function of the probe's remote stdout. -/
def fail2banChecks (fail2banStatus : String) : List AuditCheck :=
  if jsIncludes fail2banStatus "ACTIVE" then
    [⟨.pass, "Fail2Ban is running"⟩] ++
    (if jsIncludes fail2banStatus "NO_JAIL" then
      [⟨.warn, "Fail2Ban active but sshd jail not configured"⟩]
    else [])
  else [⟨.fail, "Fail2Ban is NOT running"⟩]

/-- Version-shape matcher `\d+\.\d+\.\d+` anchored at the line start. -/
def matchVersionAt (cs : List Char) : Option (List Char) := do
  let (d1, r1) ← pDigits1 cs
  let r2 ← pLitChar '.' r1
  let (d2, r3) ← pDigits1 r2
  let r4 ← pLitChar '.' r3
  let (d3, _) ← pDigits1 r4
  pure (d1 ++ ['.'] ++ d2 ++ ['.'] ++ d3)

/-- The `dockerOutput.match(/^(\d+\.\d+\.\d+)/m)` capture: the first line
(in order) beginning with a `digits.digits.digits` version shape. -/
def extractVersion? (dockerOutput : String) : Option String :=
  (jsSplitOnChar '\n' dockerOutput).firstM (fun l =>
    (matchVersionAt l.data).map String.mk)

/-- The Docker security probe classification of `runAudit` (lines 534-608
of src/commands/audit.ts), as a function of the docker script's stdout,
the `groups` stdout and the configured user. -/
def dockerChecks (dockerOutput groupsOutput vpsUser : String) : List AuditCheck :=
  if jsIncludes dockerOutput "INSTALLED" then
    (match extractVersion? dockerOutput with
     | some v =>
       if v != "ERROR" then [⟨.pass, "Docker installed (version: " ++ v ++ ")"⟩]
       else [⟨.pass, "Docker installed"⟩]
     | none => [⟨.pass, "Docker installed"⟩]) ++
    (if jsIncludes dockerOutput "DAEMON_JSON_EXISTS" then
      [⟨.pass, "Docker daemon.json exists"⟩] ++
      (if jsIncludes dockerOutput "userns-remap" then
        [⟨.pass, "Docker user namespace remap configured"⟩]
      else [⟨.warn, "Docker user namespace remap not configured in daemon.json"⟩]) ++
      (if jsIncludes dockerOutput "log-driver" then
        [⟨.pass, "Docker log driver configured"⟩]
      else [⟨.warn, "Docker log driver not configured"⟩])
    else [⟨.warn, "Docker daemon.json not found"⟩]) ++
    (if jsIncludes dockerOutput "USERNS_ENABLED" then
      [⟨.pass, "Docker user namespace remap active"⟩]
    else if jsIncludes dockerOutput "USERNS_DISABLED" then
      [⟨.warn, "Docker user namespace remap not active"⟩]
    else []) ++
    (if jsIncludes groupsOutput "docker" then
      [⟨.pass, "User " ++ vpsUser ++ " is in docker group"⟩]
    else [⟨.warn, "User " ++ vpsUser ++ " is NOT in docker group"⟩])
  else [⟨.warn, "Docker not installed"⟩]

/-- The final verdict of `runAudit` (lines 738-747 of
src/commands/audit.ts): the process exit code and summary message chosen
from the tally. -/
def finalVerdict (results : AuditResults) : Nat × String :=
  if results.failed == 0 && results.warnings == 0 then
    (0, "All security checks passed!")
  else if results.failed == 0 then
    (0, "All critical checks passed, but some warnings to review.")
  else
    (1, "Some security checks failed. Please review and fix.")

/-! ## Remote home memoization (`getComposeHome`, src/lib/compose.ts) -/

/-- JS truthiness of the `composeHomeCache` variable (`string | null`):
`null` and the empty string are falsy. -/
def cacheTruthy : Option String → Bool
  | none => false
  | some s => !(s == "")

/-- Observable effect of one `getComposeHome` call: the returned value,
the cache afterwards, and whether a remote `echo $HOME` was issued. -/
structure HomeCall where
  value : String
  cacheAfter : Option String
  fetched : Bool
deriving DecidableEq, Repr

/-- Function `getComposeHome` from src/lib/compose.ts as a state transformer on the
module-level cache; `remoteResult` is what the remote `echo $HOME` lookup
would return on this call (it depends on the passed config, which the
cached path never consults). -/
def getComposeHome (cache : Option String) (remoteResult : String) : HomeCall :=
  if cacheTruthy cache then
    ⟨cache.getD "", cache, false⟩
  else
    let home := filterMOTDFromOutput remoteResult none
    ⟨home, some home, true⟩

/-! ## Compose document editing (`addService`, src/commands/compose.ts) -/

/-- Function `ensureVolumeInCompose` from src/commands/compose.ts: add a named
volume entry (and a `volumes:` section when missing) to the line array. -/
def ensureVolumeInCompose (newLines : List String) (volumeName : String) : List String :=
  let formattedVolumeName := "  " ++ volumeName ++ ":"
  let hasVolumes := newLines.any (fun l => jsTrim l == "volumes:")
  let hasVolume := newLines.any (fun l => jsTrim l == formattedVolumeName)
  if !hasVolumes then
    match newLines.findIdx? (fun l => jsTrim l == "networks:") with
    | some networksIndex =>
      newLines.take networksIndex ++ ["", "volumes:", formattedVolumeName] ++
        newLines.drop networksIndex
    | none => newLines ++ ["", "volumes:", formattedVolumeName]
  else if !hasVolume then
    match newLines.findIdx? (fun l => jsTrim l == "volumes:") with
    | some volumesIndex =>
      newLines.take (volumesIndex + 1) ++ [formattedVolumeName] ++
        newLines.drop (volumesIndex + 1)
    | none => newLines
  else newLines

/-- Mutable state of the line loop in `addService` (lines 310-346 of
src/commands/compose.ts). -/
structure SpliceState where
  newLines : List String
  inServices : Bool
  servicesEnded : Bool
  lastServiceEndIndex : Option Nat
deriving DecidableEq, Repr

/-- The `for (let i = 0; i < lines.length; i++)` loop of `addService`:
track the services section, and insert the rendered service block before
the first later top-level key. -/
def spliceLoop (serviceConfig : String) : List String → Nat → SpliceState → SpliceState
  | [], _, st => st
  | line :: rest, i, st =>
    let trimmed := jsTrim line
    let lineIndent := line.length - (jsTrimLeft line).length
    if trimmed == "services:" then
      spliceLoop serviceConfig rest (i + 1)
        { st with newLines := st.newLines ++ [line], inServices := true }
    else
      let st1 :=
        if st.inServices && lineIndent == 0 && trimmed != "" && !(jsStartsWith trimmed "#") then
          { st with
            newLines := st.newLines ++ (if st.servicesEnded then [] else [serviceConfig, ""]),
            servicesEnded := true,
            inServices := false }
        else st
      let st2 :=
        if st1.inServices && trimmed != "" && lineIndent == 0 && !st1.servicesEnded then
          { st1 with lastServiceEndIndex := some i }
        else st1
      spliceLoop serviceConfig rest (i + 1) { st2 with newLines := st2.newLines ++ [line] }

/-- The in-memory document edit of `addService` (lines 310-381 of
src/commands/compose.ts): run the line loop, fall back to the
end-of-services / after-`services:` insertion when no later top-level key
was seen, then ensure the named volume for the mysql and bun service
types, and join the lines back into one text. -/
def spliceServiceIntoCompose (composeContent serviceConfig serviceTypeLower aliasName : String) :
    String :=
  let lines := jsSplitOnChar '\n' composeContent
  let st := spliceLoop serviceConfig lines 0 ⟨[], false, false, none⟩
  let base :=
    if st.servicesEnded then st.newLines
    else
      match st.lastServiceEndIndex with
      | some idx => st.newLines.take (idx + 1) ++ [serviceConfig, ""] ++ st.newLines.drop (idx + 1)
      | none =>
        match st.newLines.findIdx? (fun l => jsTrim l == "services:") with
        | some servicesIndex =>
          let insertIndex := servicesIndex + 1 +
            ((st.newLines.drop (servicesIndex + 1)).takeWhile
              (fun l => jsTrim l == "" || jsStartsWith (jsTrim l) "#")).length
          st.newLines.take insertIndex ++ [serviceConfig, ""] ++ st.newLines.drop insertIndex
        | none => st.newLines
  let withMysqlVolume :=
    if serviceTypeLower == "mysql" then ensureVolumeInCompose base (aliasName ++ "_data") else base
  let withBunVolume :=
    if serviceTypeLower == "bun" then ensureVolumeInCompose withMysqlVolume (aliasName ++ "_node_modules")
    else withMysqlVolume
  joinWith "\n" withBunVolume

/-- Remote state that `addService` consults before mutating anything. -/
structure RemoteProjectEnv where
  dirExists : Bool
  fileExists : Bool
  composeContent : String
deriving DecidableEq, Repr

/-- Remote side effects of one `addService` run on the compose file:
`exitCode = some 1` means the command aborted there with `process.exit(1)`;
`backup` and `uploaded` are the contents written to the timestamped backup
path and back to `docker-compose.yml`, when those writes happened. -/
structure AddServiceOutcome where
  exitCode : Option Nat
  backup : Option String
  uploaded : Option String
  finalContent : String
deriving DecidableEq, Repr

/-- The remote `grep -q "^  ${alias}:" compose-file` existence probe of
`addService` (for a plain alias without regex metacharacters): some line
starts with two spaces, the alias, and a colon. -/
def serviceGrepMatches (composeContent aliasName : String) : Bool :=
  (jsSplitOnChar '\n' composeContent).any (fun l => jsStartsWith l ("  " ++ aliasName ++ ":"))

/-- Function `addService` from src/commands/compose.ts as a function of the remote
state, tracking its effect on the compose file.  The checks run in source
order: project directory, compose file, existing alias, service type; only
after all of them does the command back up the file, splice the rendered
`serviceConfig` block (produced by `getBunService`/`getMysqlService`) into
it and upload the result. -/
def addService (env : RemoteProjectEnv) (serviceType aliasName serviceConfig : String) :
    AddServiceOutcome :=
  if !env.dirExists then ⟨some 1, none, none, env.composeContent⟩
  else if !env.fileExists then ⟨some 1, none, none, env.composeContent⟩
  else if serviceGrepMatches env.composeContent aliasName then ⟨some 1, none, none, env.composeContent⟩
  else
    let serviceTypeLower := jsToLower serviceType
    if serviceTypeLower != "bun" && serviceTypeLower != "mysql" then
      ⟨some 1, none, none, env.composeContent⟩
    else
      let newContent := spliceServiceIntoCompose env.composeContent serviceConfig serviceTypeLower aliasName
      ⟨none, some env.composeContent, some newContent, newContent⟩

/-- Invariant of the line loop of `parseListeningPorts` relating the
`exposedMap` association list to the `allPorts` array: keys are distinct,
a key is present exactly when some parsed record is exposed with that key,
and every stored entry is the exposed image of some eligible record. -/
def ParseInv (acc : List PortInfo × List (String × ExposedPort)) : Prop :=
  (acc.2.map Prod.fst).Nodup ∧
  (∀ k : String, k ∈ acc.2.map Prod.fst ↔
    ∃ p, p ∈ acc.1 ∧ eligible p = true ∧ recKey p = k) ∧
  (∀ kv, kv ∈ acc.2 → ∃ p, eligible p = true ∧ kv = (recKey p, toExposed p))

/-! ## Theorems -/

/-- A line with no recognized key prefix leaves the parse accumulator
unchanged. -/
theorem parseSSHConfigLine_no_key (acc : SSHConfigAcc) (line : String)
    (h : lineNoKey line = true) : parseSSHConfigLine acc line = acc := by
  unfold lineNoKey at h
  simp only [Bool.and_eq_true, Bool.not_eq_true'] at h
  obtain ⟨⟨⟨⟨h1, h2⟩, h3⟩, h4⟩, h5⟩ := h
  unfold parseSSHConfigLine
  simp [h1, h2, h3, h4, h5]

/-- Folding the key-line parser over key-free lines is the identity. -/
theorem foldl_parseSSHConfigLine_no_key (lines : List String) :
    ∀ acc : SSHConfigAcc, lines.all lineNoKey = true →
      lines.foldl parseSSHConfigLine acc = acc := by
  induction lines with
  | nil => intro acc _; rfl
  | cons l ls ih =>
    intro acc h
    rw [List.all_cons, Bool.and_eq_true] at h
    rw [List.foldl_cons, parseSSHConfigLine_no_key acc l h.1]
    exact ih acc h.2

/-- C9: for any SSH-hardening snapshot blob containing none of the five
expected `KEY=` lines, `parseSSHConfig` returns the all-default snapshot:
`permitRootLogin`, `passwordAuthentication` and `useDNS` default to
"unknown", `allowUsers` to "not set", and `challengeResponseAuthentication`
asymmetrically to "no". -/
theorem parseSSHConfig_all_defaults (output : String)
    (h : noSSHConfigKeyLines output = true) :
    parseSSHConfig output = ⟨"unknown", "unknown", "no", "not set", "unknown"⟩ := by
  unfold parseSSHConfig
  rw [foldl_parseSSHConfigLine_no_key _ _ h]
  rfl

/-- Witness for C9 on a concrete two-line banner blob. -/
theorem parseSSHConfig_all_defaults_witness :
    noSSHConfigKeyLines "Welcome to Ubuntu 22.04\nLast login: today" = true ∧
    parseSSHConfig "Welcome to Ubuntu 22.04\nLast login: today" =
      ⟨"unknown", "unknown", "no", "not set", "unknown"⟩ :=
  ⟨by decide, parseSSHConfig_all_defaults "Welcome to Ubuntu 22.04\nLast login: today" (by decide)⟩

/-- C3: the final audit verdict depends only on the failed and warning
counters: zero fails and zero warns exits 0 with the success message, zero
fails with warns exits 0 with the advisory message, any fail exits 1 with
the alert message; the passed tally never affects it. -/
theorem finalVerdict_spec (r : AuditResults) :
    finalVerdict r =
      (if r.failed = 0 then
        (if r.warnings = 0 then ((0 : Nat), "All security checks passed!")
         else ((0 : Nat), "All critical checks passed, but some warnings to review."))
       else ((1 : Nat), "Some security checks failed. Please review and fix.")) ∧
    (∀ (n : Nat) (items : List String),
      finalVerdict { r with passed := n, passedItems := items } = finalVerdict r) := by
  obtain ⟨p, f, w, pi, fi, wi⟩ := r
  constructor
  · by_cases hf : f = 0 <;> by_cases hw : w = 0 <;> simp [finalVerdict, hf, hw]
  · intro n items; rfl

/-- C1: on the Fail2Ban probe output "INACTIVE" (the marker the remote
script emits when the service is inactive), `runAudit` takes the active
branch — the substring check `includes("ACTIVE")` also matches "INACTIVE"
— so it records the pass "Fail2Ban is running": the failed counter is
unchanged and the passed counter is incremented, contrary to the
documented inactive-means-fail classification. -/
theorem fail2ban_inactive_counted_as_running :
    fail2banChecks "INACTIVE" = [⟨.pass, "Fail2Ban is running"⟩] ∧
    ∀ r : AuditResults,
      (applyChecks r (fail2banChecks "INACTIVE")).failed = r.failed ∧
      (applyChecks r (fail2banChecks "INACTIVE")).passed = r.passed + 1 := by
  have h : fail2banChecks "INACTIVE" = [⟨.pass, "Fail2Ban is running"⟩] := by decide
  refine ⟨h, fun r => ?_⟩
  rw [h]
  simp [applyChecks, applyCheck, checkPass]

/-- C2: on the Docker probe output "NOT_INSTALLED" (the marker the remote
script emits when Docker is absent), `runAudit` takes the installed branch
— the substring check `includes("INSTALLED")` also matches
"NOT_INSTALLED" — so it records the pass "Docker installed" plus the
daemon.json and docker-group warnings, never the single
"Docker not installed" warning; in particular a pass is recorded. -/
theorem docker_absent_counted_as_installed :
    ∀ groupsOutput vpsUser : String,
      (dockerChecks "NOT_INSTALLED" groupsOutput vpsUser =
        [⟨.pass, "Docker installed"⟩, ⟨.warn, "Docker daemon.json not found"⟩] ++
        (if jsIncludes groupsOutput "docker" then
          [⟨.pass, "User " ++ vpsUser ++ " is in docker group"⟩]
        else [⟨.warn, "User " ++ vpsUser ++ " is NOT in docker group"⟩])) ∧
      ∀ r : AuditResults,
        r.passed + 1 ≤ (applyChecks r (dockerChecks "NOT_INSTALLED" groupsOutput vpsUser)).passed := by
  intro groupsOutput vpsUser
  have h1 : jsIncludes "NOT_INSTALLED" "INSTALLED" = true := by decide
  have h2 : jsIncludes "NOT_INSTALLED" "DAEMON_JSON_EXISTS" = false := by decide
  have h3 : jsIncludes "NOT_INSTALLED" "USERNS_ENABLED" = false := by decide
  have h4 : jsIncludes "NOT_INSTALLED" "USERNS_DISABLED" = false := by decide
  have h5 : extractVersion? "NOT_INSTALLED" = none := by decide
  have heq : dockerChecks "NOT_INSTALLED" groupsOutput vpsUser =
      [⟨.pass, "Docker installed"⟩, ⟨.warn, "Docker daemon.json not found"⟩] ++
      (if jsIncludes groupsOutput "docker" then
        [⟨.pass, "User " ++ vpsUser ++ " is in docker group"⟩]
      else [⟨.warn, "User " ++ vpsUser ++ " is NOT in docker group"⟩]) := by
    unfold dockerChecks
    rw [h1, h2, h3, h4, h5]
    simp
  refine ⟨heq, fun r => ?_⟩
  rw [heq]
  by_cases hg : jsIncludes groupsOutput "docker" <;>
    simp [hg, applyChecks, applyCheck, checkPass, checkWarn]

/-- Soundness of the first-occurrence search: a returned index is a match
position and every earlier position is not. -/
theorem firstMatchPos_spec (needle : List Char) :
    ∀ (hay : List Char) (i : Nat), firstMatchPos hay needle = some i →
      needle.isPrefixOf (hay.drop i) = true ∧
      ∀ j, j < i → needle.isPrefixOf (hay.drop j) = false := by
  intro hay
  induction hay with
  | nil =>
    intro i h
    unfold firstMatchPos at h
    by_cases hp : needle.isPrefixOf ([] : List Char) = true
    · rw [if_pos hp] at h
      injection h with h0
      subst h0
      exact ⟨by simpa using hp, fun j hj => absurd hj (by omega)⟩
    · rw [if_neg hp] at h
      exact absurd h (by simp)
  | cons c t ih =>
    intro i h
    unfold firstMatchPos at h
    by_cases hp : needle.isPrefixOf (c :: t) = true
    · rw [if_pos hp] at h
      injection h with h0
      subst h0
      exact ⟨by simpa using hp, fun j hj => absurd hj (by omega)⟩
    · rw [if_neg hp] at h
      simp only [Option.map_eq_some'] at h
      obtain ⟨i', hi', rfl⟩ := h
      obtain ⟨ha, hb⟩ := ih i' hi'
      rw [Bool.not_eq_true] at hp
      refine ⟨by simpa using ha, fun j hj => ?_⟩
      cases j with
      | zero => simpa using hp
      | succ j' => simpa using hb j' (by omega)

/-- C5 counterexample: with the marker "Status:" supplied but absent from
the input, `filterMOTDFromOutput` still applies the last-non-empty-line
heuristic — it returns the heuristic's value, which differs from the
trimmed input — so the heuristic is not reserved to the omitted-marker
case. -/
theorem filterMOTD_absent_marker_falls_through :
    jsIndexOf? "Welcome to Ubuntu\n/home/deploy" "Status:" = none ∧
    filterMOTDFromOutput "Welcome to Ubuntu\n/home/deploy" (some "Status:") = "/home/deploy" ∧
    lastNonEmptyFallback "Welcome to Ubuntu\n/home/deploy" = "/home/deploy" ∧
    jsTrim "Welcome to Ubuntu\n/home/deploy" ≠ "/home/deploy" := by decide

/-- C5 (amended): when a supplied marker is non-empty (JS-truthy) and
occurs in the input, `filterMOTDFromOutput` returns the suffix from the
marker's first occurrence; when the marker is omitted, supplied as the
empty string (falsy under the source's `if (outputMarker)` guard), or
supplied but absent from the input, it applies the
last-non-empty-trimmed-line heuristic. -/
theorem filterMOTD_marker_spec (output marker : String) :
    (∀ i : Nat, marker ≠ "" → jsIndexOf? output marker = some i →
      marker.data.isPrefixOf (output.data.drop i) = true ∧
      (∀ j, j < i → marker.data.isPrefixOf (output.data.drop j) = false) ∧
      filterMOTDFromOutput output (some marker) = jsSliceFrom output i) ∧
    (marker ≠ "" → jsIndexOf? output marker = none →
      filterMOTDFromOutput output (some marker) = lastNonEmptyFallback output) ∧
    filterMOTDFromOutput output (some "") = lastNonEmptyFallback output ∧
    filterMOTDFromOutput output none = lastNonEmptyFallback output := by
  have hunfold : filterMOTDFromOutput output (some marker) =
      (if marker != "" then
        match jsIndexOf? output marker with
        | some markerIndex => jsSliceFrom output markerIndex
        | none => lastNonEmptyFallback output
      else lastNonEmptyFallback output) := rfl
  have hempty : filterMOTDFromOutput output (some "") =
      (if ("" : String) != "" then
        match jsIndexOf? output "" with
        | some markerIndex => jsSliceFrom output markerIndex
        | none => lastNonEmptyFallback output
      else lastNonEmptyFallback output) := rfl
  refine ⟨fun i hm h => ?_, fun hm h => ?_, ?_, rfl⟩
  · have hb2 : (marker != "") = true := by simpa using hm
    obtain ⟨ha, hb⟩ := firstMatchPos_spec marker.data output.data i h
    exact ⟨ha, hb, by rw [hunfold, if_pos hb2, h]⟩
  · have hb2 : (marker != "") = true := by simpa using hm
    rw [hunfold, if_pos hb2, h]
  · rw [hempty, if_neg (by decide)]

/-- Witness for C5 on a banner followed by the real "Status:" payload. -/
theorem filterMOTD_marker_spec_witness :
    ("Status:" : String) ≠ "" ∧
    jsIndexOf? "MOTD\nStatus: active" "Status:" = some 5 ∧
    filterMOTDFromOutput "MOTD\nStatus: active" (some "Status:") = "Status: active" := by
  have h := (filterMOTD_marker_spec "MOTD\nStatus: active" "Status:").1 5 (by decide) (by decide)
  exact ⟨by decide, by decide, h.2.2.trans (by decide)⟩

/-- C6: a LISTEN line whose local address has the unbracketed IPv6
loopback form `::1:631` parses to bind address "::1" but port "31": the
`::1:port` branch slices five characters although the `::1:` prefix is
only four, so the port's first digit is dropped (the sibling branches all
slice exactly their prefix length). -/
theorem parseListeningPorts_unbracketed_loopback_drops_digit :
    (parseListeningPorts "tcp LISTEN 0 128 ::1:631 users:((\"cupsd\",pid=1,fd=7))").1 =
      [⟨"TCP", "31", some "cupsd", "::1"⟩] := by decide

/-- C8: `sshExec` reports a non-zero remote exit code through
`success = false` in the returned result, and a spawn failure likewise
yields a returned result with `success = false` carrying the spawn error
text in `stderr`; being a total function into `SSHResult`, the embedding
never propagates an exception. -/
theorem sshExec_reports_failure_in_result :
    (∀ p : ProcOutcome, p.exitCode ≠ 0 → (sshExec (.ok p)).success = false) ∧
    (∀ message : String,
      (sshExec (.spawnError message)).success = false ∧
      (sshExec (.spawnError message)).stderr = message) := by
  constructor
  · intro p hp
    simp [sshExec, hp]
  · intro message
    exact ⟨rfl, rfl⟩

/-- Witness for C8 at exit code 255 and a concrete spawn error. -/
theorem sshExec_reports_failure_in_result_witness :
    ((255 : Int) ≠ 0 ∧ (sshExec (.ok ⟨"out", "err", 255⟩)).success = false) ∧
    (sshExec (.spawnError "spawn ssh ENOENT")).success = false ∧
    (sshExec (.spawnError "spawn ssh ENOENT")).stderr = "spawn ssh ENOENT" :=
  ⟨⟨by decide, sshExec_reports_failure_in_result.1 ⟨"out", "err", 255⟩ (by decide)⟩,
    sshExec_reports_failure_in_result.2 "spawn ssh ENOENT"⟩

/-- C10: once a `getComposeHome` call has returned a non-empty value, any
subsequent call — whatever remote lookup its config would produce —
returns the same value with the cache unchanged and no fetch issued;
after an empty-string result the next call fetches again. -/
theorem getComposeHome_memoizes (cache : Option String) (remote1 remote2 : String) :
    ((getComposeHome cache remote1).value ≠ "" →
      getComposeHome (getComposeHome cache remote1).cacheAfter remote2 =
        ⟨(getComposeHome cache remote1).value,
          (getComposeHome cache remote1).cacheAfter, false⟩) ∧
    ((getComposeHome cache remote1).value = "" →
      (getComposeHome (getComposeHome cache remote1).cacheAfter remote2).fetched = true) := by
  have etruthy : ∀ s r, s ≠ "" → getComposeHome (some s) r = ⟨s, some s, false⟩ := by
    intro s r hs
    unfold getComposeHome cacheTruthy
    simp [hs]
  have efalsy : ∀ s r, s = "" → (getComposeHome (some s) r).fetched = true := by
    intro s r hs
    subst hs
    rfl
  match cache with
  | none =>
    have e1 : getComposeHome none remote1 =
        ⟨filterMOTDFromOutput remote1 none, some (filterMOTDFromOutput remote1 none), true⟩ := rfl
    rw [e1]
    exact ⟨fun hv => etruthy _ _ hv, fun hv => efalsy _ _ hv⟩
  | some s =>
    by_cases hs : s = ""
    · subst hs
      have e2 : getComposeHome (some "") remote1 =
          ⟨filterMOTDFromOutput remote1 none, some (filterMOTDFromOutput remote1 none), true⟩ := rfl
      rw [e2]
      exact ⟨fun hv => etruthy _ _ hv, fun hv => efalsy _ _ hv⟩
    · rw [etruthy s remote1 hs]
      exact ⟨fun _ => etruthy s remote2 hs, fun hv => absurd hv hs⟩

/-- Witness for C10: a first call through a banner caches "/home/deploy";
the second call with a different config's lookup result returns the cached
value without fetching. -/
theorem getComposeHome_memoizes_witness :
    (getComposeHome none "Welcome banner\n/home/deploy").value ≠ "" ∧
    getComposeHome (getComposeHome none "Welcome banner\n/home/deploy").cacheAfter "/root" =
      ⟨"/home/deploy", some "/home/deploy", false⟩ := by
  have h := (getComposeHome_memoizes none "Welcome banner\n/home/deploy" "/root").1 (by decide)
  exact ⟨by decide, h.trans (by decide)⟩

/-- C7: when the target alias already exists as a service line in the
remote compose document, `addService` aborts with exit code 1 before the
backup and upload steps: no backup content is written, nothing is
uploaded, and the compose file content is left unchanged. -/
theorem addService_existing_alias_aborts (env : RemoteProjectEnv)
    (serviceType aliasName serviceConfig : String)
    (h : serviceGrepMatches env.composeContent aliasName = true) :
    addService env serviceType aliasName serviceConfig =
      ⟨some 1, none, none, env.composeContent⟩ := by
  obtain ⟨d, f, content⟩ := env
  cases d <;> cases f <;> simp_all [addService]

/-- Witness for C7 on a document already containing the "db" service. -/
theorem addService_existing_alias_aborts_witness :
    serviceGrepMatches "services:\n  db:\n    image: mysql:8.0" "db" = true ∧
    addService ⟨true, true, "services:\n  db:\n    image: mysql:8.0"⟩ "mysql" "db"
        "  db:\n    image: mysql:8.0" =
      ⟨some 1, none, none, "services:\n  db:\n    image: mysql:8.0"⟩ :=
  ⟨by decide,
    addService_existing_alias_aborts ⟨true, true, "services:\n  db:\n    image: mysql:8.0"⟩
      "mysql" "db" "  db:\n    image: mysql:8.0" (by decide)⟩

/-- One parse step preserves the exposed-map invariant. -/
theorem parseStep_inv (acc : List PortInfo × List (String × ExposedPort)) (line : String)
    (h : ParseInv acc) : ParseInv (parseStep acc line) := by
  obtain ⟨h1, h2, h3⟩ := h
  cases hp : processLine line with
  | none => simpa only [parseStep, hp] using ⟨h1, h2, h3⟩
  | some p =>
    by_cases he : eligible p = true
    · by_cases hc : (acc.2.map Prod.fst).contains (recKey p) = true
      · simp only [parseStep, hp, he, hc, if_true]
        refine ⟨h1, fun k => ?_, h3⟩
        constructor
        · intro hk
          obtain ⟨q, hq, hqe, hqk⟩ := (h2 k).mp hk
          exact ⟨q, List.mem_append_left _ hq, hqe, hqk⟩
        · rintro ⟨q, hq, hqe, hqk⟩
          rcases List.mem_append.mp hq with hq | hq
          · exact (h2 k).mpr ⟨q, hq, hqe, hqk⟩
          · have hqp : q = p := by simpa using hq
            subst hqp
            subst hqk
            simpa using hc
      · simp only [parseStep, hp, he, hc, Bool.false_eq_true, if_true, if_false]
        have hnotmem : recKey p ∉ acc.2.map Prod.fst := by
          intro hmem
          exact hc (by simpa using hmem)
        refine ⟨?_, fun k => ?_, fun kv hkv => ?_⟩
        · rw [List.map_append]
          simp only [List.map_cons, List.map_nil]
          exact List.Nodup.append h1 (List.nodup_singleton _)
            (by simpa [List.disjoint_singleton] using hnotmem)
        · rw [List.map_append]
          simp only [List.map_cons, List.map_nil]
          constructor
          · intro hk
            rcases List.mem_append.mp hk with hk | hk
            · obtain ⟨q, hq, hqe, hqk⟩ := (h2 k).mp hk
              exact ⟨q, List.mem_append_left _ hq, hqe, hqk⟩
            · have hkp : k = recKey p := by simpa using hk
              exact ⟨p, List.mem_append_right _ (by simp), he, hkp.symm⟩
          · rintro ⟨q, hq, hqe, hqk⟩
            rcases List.mem_append.mp hq with hq | hq
            · exact List.mem_append_left _ ((h2 k).mpr ⟨q, hq, hqe, hqk⟩)
            · have hqp : q = p := by simpa using hq
              subst hqp
              exact List.mem_append_right _ (by simp [hqk.symm])
        · rcases List.mem_append.mp hkv with hkv | hkv
          · exact h3 kv hkv
          · have : kv = (recKey p, toExposed p) := by simpa using hkv
            exact ⟨p, he, this⟩
    · simp only [parseStep, hp, he, Bool.false_eq_true, if_true, if_false]
      refine ⟨h1, fun k => ?_, h3⟩
      constructor
      · intro hk
        obtain ⟨q, hq, hqe, hqk⟩ := (h2 k).mp hk
        exact ⟨q, List.mem_append_left _ hq, hqe, hqk⟩
      · rintro ⟨q, hq, hqe, hqk⟩
        rcases List.mem_append.mp hq with hq | hq
        · exact (h2 k).mpr ⟨q, hq, hqe, hqk⟩
        · have hqp : q = p := by simpa using hq
          subst hqp
          exact absurd hqe he

/-- The exposed-map invariant holds after folding the parse step over any
line list. -/
theorem foldl_parseStep_inv (lines : List String) :
    ∀ acc, ParseInv acc → ParseInv (lines.foldl parseStep acc) := by
  induction lines with
  | nil => intro acc h; exact h
  | cons l ls ih => intro acc h; exact ih _ (parseStep_inv acc l h)

/-- C4 counterexample: two LISTEN lines binding `0.0.0.0:80` and
`0.0.0.0:080` — the same numeric (protocol, port) pair — produce two
entries in the exposed set, because the dedup key uses the parsed port
text, not its numeric value. -/
theorem parseListeningPorts_numeric_pair_duplicated :
    ((parseListeningPorts "tcp LISTEN 0.0.0.0:80 a\ntcp LISTEN 0.0.0.0:080 b").2.map
      (fun e => (e.protocol, e.port))) = [("TCP", 80), ("TCP", 80)] := by decide

/-- C4 (amended): the exposed set of `parseListeningPorts` holds exactly
one entry per (protocol, parsed-port-text) pair among the parsed LISTEN
records whose bind address is "0.0.0.0", "::" or "*" and whose numeric
port is not 22, 53 or 123 — the map keys are distinct and characterize
those records — and every exposed entry has a wildcard bind address
(never "127.0.0.1" or "::1") and a numeric port outside {22, 53, 123};
records whose port texts differ only in leading zeros count as distinct
pairs. -/
theorem parseListeningPorts_exposed_dedup (ssOutput : String) :
    ((parseListeningPortsFull ssOutput).2.map Prod.fst).Nodup ∧
    (∀ k : String, k ∈ (parseListeningPortsFull ssOutput).2.map Prod.fst ↔
      ∃ p, p ∈ (parseListeningPortsFull ssOutput).1 ∧ eligible p = true ∧ recKey p = k) ∧
    (∀ e, e ∈ (parseListeningPorts ssOutput).2 →
      (e.bindAddress = "0.0.0.0" ∨ e.bindAddress = "::" ∨ e.bindAddress = "*") ∧
      e.bindAddress ≠ "127.0.0.1" ∧ e.bindAddress ≠ "::1" ∧
      e.port ≠ 22 ∧ e.port ≠ 53 ∧ e.port ≠ 123) := by
  have hinv : ParseInv (parseListeningPortsFull ssOutput) := by
    unfold parseListeningPortsFull
    exact foldl_parseStep_inv _ ([], []) ⟨by simp, by simp, by simp⟩
  obtain ⟨h1, h2, h3⟩ := hinv
  refine ⟨h1, h2, fun e he => ?_⟩
  unfold parseListeningPorts at he
  simp only [List.mem_map] at he
  obtain ⟨kv, hkv, rfl⟩ := he
  obtain ⟨p, hpe, rfl⟩ := h3 kv hkv
  simp only [eligible, Bool.and_eq_true, Bool.or_eq_true, beq_iff_eq,
    Bool.not_eq_true', Bool.or_eq_false_iff, beq_eq_false_iff_ne, ne_eq] at hpe
  obtain ⟨⟨hwild, _⟩, hport⟩ := hpe
  have hwild2 : p.bind = "0.0.0.0" ∨ p.bind = "::" ∨ p.bind = "*" := by tauto
  have h22 : jsParseIntNat p.port ≠ 22 := by tauto
  have h53 : jsParseIntNat p.port ≠ 53 := by tauto
  have h123 : jsParseIntNat p.port ≠ 123 := by tauto
  have hb : (toExposed p).bindAddress = p.bind := rfl
  have hn : (toExposed p).port = jsParseIntNat p.port := rfl
  rw [hb, hn]
  refine ⟨hwild2, ?_, ?_, h22, h53, h123⟩
  · rcases hwild2 with h | h | h <;> rw [h] <;> decide
  · rcases hwild2 with h | h | h <;> rw [h] <;> decide

/-- Witness for C4 on the spec's sample socket line: the parsed node
socket is in the exposed set and satisfies the amended guarantees. -/
theorem parseListeningPorts_exposed_dedup_witness :
    ((⟨"TCP", 8080, some "node", "0.0.0.0"⟩ : ExposedPort) ∈
      (parseListeningPorts
        "tcp   LISTEN 0      128          0.0.0.0:8080       0.0.0.0:*     users:((\"node\",pid=1,fd=3))").2) ∧
    ((⟨"TCP", 8080, some "node", "0.0.0.0"⟩ : ExposedPort).bindAddress = "0.0.0.0" ∨
      (⟨"TCP", 8080, some "node", "0.0.0.0"⟩ : ExposedPort).bindAddress = "::" ∨
      (⟨"TCP", 8080, some "node", "0.0.0.0"⟩ : ExposedPort).bindAddress = "*") ∧
    (⟨"TCP", 8080, some "node", "0.0.0.0"⟩ : ExposedPort).port ≠ 22 :=
  ⟨by decide,
    ((parseListeningPorts_exposed_dedup
      "tcp   LISTEN 0      128          0.0.0.0:8080       0.0.0.0:*     users:((\"node\",pid=1,fd=3))").2.2
      ⟨"TCP", 8080, some "node", "0.0.0.0"⟩ (by decide)).1,
    ((parseListeningPorts_exposed_dedup
      "tcp   LISTEN 0      128          0.0.0.0:8080       0.0.0.0:*     users:((\"node\",pid=1,fd=3))").2.2
      ⟨"TCP", 8080, some "node", "0.0.0.0"⟩ (by decide)).2.2.2.1⟩
